import Mathlib

/-!
# Verification of the Claude form-assistant browser extension

Shallow embedding of the extension's content script, context-capture
helpers and backend client, together with proofs of the specification
claims about them.  Strings are modelled as lists of characters so that
the JavaScript string operations (substring search, trimming, run
collapsing, truncation) become executable Lean functions.
-/

namespace ClaudeAutofill

/-- JavaScript strings are modelled as lists of characters. -/
abbrev Str := List Char

/-- Coerce a Lean string literal into the model. -/
def str (s : String) : Str := s.data

/-- Decimal rendering of a natural number, as used by JS template
literals interpolating an HTTP status code. -/
def natStr (n : Nat) : Str := (Nat.repr n).data

/-- `isPrefOf p l` is the boolean test that `p` occurs at the start of
`l` (the primitive behind JS `String.prototype.startsWith`). -/
def isPrefOf : Str → Str → Bool
  | [], _ => true
  | _ :: _, [] => false
  | a :: as, b :: bs => a = b && isPrefOf as bs

/-- Split a string at the first occurrence of `pat`, returning the part
before and the part after the occurrence; `none` when `pat` does not
occur.  This models both JS `includes` and the leftmost match of a
non-greedy regular expression. -/
def splitFirst (pat : Str) : Str → Option (Str × Str)
  | [] => if pat = [] then some ([], []) else none
  | x :: xs =>
    if isPrefOf pat (x :: xs) then some ([], (x :: xs).drop pat.length)
    else
      match splitFirst pat xs with
      | none => none
      | some (pre, post) => some (x :: pre, post)

/-- JS `String.prototype.includes`. -/
def hasSub (pat l : Str) : Bool := (splitFirst pat l).isSome

/-- Whitespace characters removed by JS `String.prototype.trim`. -/
def isWsp (c : Char) : Bool := c = ' ' || c = '\n' || c = '\t' || c = '\r'

/-- JS `String.prototype.trim`. -/
def trimStr (l : Str) : Str :=
  ((l.dropWhile isWsp).reverse.dropWhile isWsp).reverse

/-- JS truthiness of a possibly-null string: `null`/`undefined` and the
empty string are falsy. -/
def optStrTruthy : Option Str → Bool
  | none => false
  | some s => !s.isEmpty

/- ### Context capture (context-handler.js)

`cleanPageContent`, the 20,000 character truncation and
`captureDirectPageContent`, translated from the source; the DOM
extraction itself (`extractStructuredContent` / `getVisibleTextNodes`)
is abstracted into the `extracted` input string. -/

/-- `CONTEXT_CONFIG.maxPageContentLength`. -/
def maxPageContentLength : Nat := 20000

/-- The literal marker appended on truncation. -/
def truncationMarker : Str := str "\n\n[Content truncated due to length]"

/-- Helper for run collapsing: the JS regex replacements
`replace(\n-runs of length at least 3, two \n)` and
`replace(space-runs of length at least 2, one space)` both cap every
maximal run of the character `c` at `cap` repetitions. -/
def capRunGo (c : Char) (cap : Nat) : Nat → Str → Str
  | k, [] => List.replicate (min k cap) c
  | k, x :: xs =>
    if x = c then capRunGo c cap (k + 1) xs
    else List.replicate (min k cap) c ++ x :: capRunGo c cap 0 xs

/-- Cap every maximal run of `c` in the string at `cap` repetitions. -/
def capRun (c : Char) (cap : Nat) (l : Str) : Str := capRunGo c cap 0 l

/-- The control characters removed by
`replace(/[\u0000-\u001F\u007F-\u009F]/g, "")`. -/
def isCtrlChar (ch : Char) : Bool :=
  ch.toNat ≤ 0x1F || (0x7F ≤ ch.toNat && ch.toNat ≤ 0x9F)

/-- JS `String.prototype.split` on a single character. -/
def splitOnChar (c : Char) : Str → List Str
  | [] => [[]]
  | x :: xs =>
    match splitOnChar c xs with
    | [] => if x = c then [[], []] else [[x]]
    | h :: t => if x = c then [] :: h :: t else (x :: h) :: t

/-- `cleanPageContent`: collapse newline runs, collapse space runs,
strip control characters, and drop lines whose trimmed length is at
most 10 unless they are blank. -/
def cleanPageContent (content : Str) : Str :=
  List.intercalate [ '\n' ]
    ((splitOnChar '\n'
        ((capRun ' ' 1 (capRun '\n' 2 content)).filter
          (fun ch => !isCtrlChar ch))).filter
      (fun line => 10 < (trimStr line).length || trimStr line = []))

/-- The truncation step at the end of `captureDirectPageContent` (and
inside `captureWithJina`): content longer than the budget is cut to
exactly the budget and the marker is appended. -/
def truncateContent (s : Str) : Str :=
  if s.length > maxPageContentLength then
    s.take maxPageContentLength ++ truncationMarker
  else s

/-- The title/URL header prepended by `captureDirectPageContent`. -/
def pageHeader (title url : Str) : Str :=
  str "# " ++ title ++ str "\nURL: " ++ url ++ str "\n\n"

/-- `captureDirectPageContent`, with the DOM extraction result passed
in as `extracted`: clean, truncate, and prepend the page header. -/
def captureDirectPageContent (title url extracted : Str) : Str :=
  pageHeader title url ++ truncateContent (cleanPageContent extracted)

/- ### Backend client (background.js)

The chat-service HTTP calls.  Each call is modelled against a
`BackendEnv` fixing the status code and body the service would answer
with; `fetch` rejects with an error carrying the status exactly when
the status is outside 2xx, as in the source. -/

/-- `Response.ok` of the Fetch API: status in the range 200-299. -/
def respOk (status : Nat) : Bool := 200 ≤ status && status ≤ 299

/-- One organization record from `/api/organizations`. -/
structure Org where
  uuid : Str
  name : Str
deriving DecidableEq

/-- One content block of a transcript message; `text` is `none` when
the JSON field is absent. -/
structure ContentBlock where
  text : Option Str
deriving DecidableEq

/-- One message of a conversation transcript. -/
structure ChatMessage where
  content : Option (List ContentBlock)
deriving DecidableEq

/-- A conversation transcript as returned by the chat endpoint. -/
structure ChatResponse where
  chat_messages : Option (List ChatMessage)
deriving DecidableEq

/-- `extractAnswer`: the guarded access
`response.chat_messages[1].content[0].text`, returning the empty
string whenever any step of the path is missing or falsy. -/
def extractAnswer (response : Option ChatResponse) : Str :=
  match response with
  | none => []
  | some resp =>
    match resp.chat_messages with
    | none => []
    | some msgs =>
      match msgs[1]? with
      | none => []
      | some second =>
        match second.content with
        | none => []
        | some blocks =>
          match blocks[0]? with
          | none => []
          | some block =>
            match block.text with
            | none => []
            | some t => t

/-- An image attachment as built by `sendMessage`. -/
structure Attachment where
  file_name : Str
  file_size : Nat
  data : Str
deriving DecidableEq

/-- The parts of the `sendMessage` POST body that depend on the
message: the posted prompt and the attachments list. -/
structure MessageBody where
  prompt : Str
  attachments : List Attachment
deriving DecidableEq

/-- The opening image marker searched for in the prompt. -/
def imgOpenTag : Str := str "<image>"

/-- The closing image marker. -/
def imgCloseTag : Str := str "</image>"

/-- The message processing of `sendMessage`: when the message contains
a full non-empty `<image>...</image>` marker, the base64 payload
becomes a single attachment (size estimated as 3/4 of the base64
length, rounded up) and the marker is removed from the posted prompt;
otherwise the message is posted as is with no attachments. -/
def sendMessageBody (message : Str) : MessageBody :=
  let hasImage := hasSub imgOpenTag message
  if hasImage then
    match splitFirst imgOpenTag message with
    | none => ⟨message, []⟩
    | some (pre, rest) =>
      match splitFirst imgCloseTag rest with
      | none => ⟨message, []⟩
      | some (grp, suf) =>
        if grp = [] then ⟨message, []⟩
        else
          let base64Data := trimStr grp
          ⟨pre ++ suf,
           [⟨str "screenshot.png", (3 * base64Data.length + 3) / 4, base64Data⟩]⟩
  else ⟨message, []⟩

/-- The body of the service's reply to a conversation-creation POST
(parsed by the source via `response.json()` and then discarded). -/
structure CreateReplyBody where
  uuid : Str
deriving DecidableEq

/-- The fields of the conversation-creation POST body that depend on
the request. -/
structure CreateRequest where
  name : Str
  project_uuid : Option Str
  uuid : Str
deriving DecidableEq

/-- The service environment one `askClaude` run executes against. -/
structure BackendEnv where
  orgsStatus : Nat
  orgsBody : List Org
  createStatus : Nat
  createBody : CreateReplyBody
  sendStatus : Nat
  sendBody : Str
  chatStatus : Nat
  chatBody : Option ChatResponse
  projectsStatus : Nat
  freshUuid : Str
  dateStr : Str

/-- `fetchOrganizations`. -/
def fetchOrganizations (env : BackendEnv) : Except Str (List Org) :=
  if respOk env.orgsStatus then .ok env.orgsBody
  else .error (str "Failed to fetch organizations: " ++ natStr env.orgsStatus)

/-- `fetchProjects` (the recent-conversations list); only its failure
behaviour is relevant to the claims, so the success body is omitted. -/
def fetchProjectsCall (env : BackendEnv) : Except Str Unit :=
  if respOk env.projectsStatus then .ok ()
  else .error (str "Failed to fetch conversations: " ++ natStr env.projectsStatus)

/-- The default conversation name, `Form Assistant - <date>`. -/
def fallbackConversationName (env : BackendEnv) : Str :=
  str "Form Assistant - " ++ env.dateStr

/-- The creation request posted by `createConversation`:
`name = name || fallback`, the project uuid, and a client-generated
`crypto.randomUUID()` value. -/
def createConversationRequest (env : BackendEnv) (projId : Option Str)
    (name : Option Str) : CreateRequest :=
  ⟨(match name with
     | some n => if n = [] then fallbackConversationName env else n
     | none => fallbackConversationName env),
   projId, env.freshUuid⟩

/-- `createConversation`: posts the creation request and, on a 2xx
reply, returns the client-generated uuid; the parsed reply body is
discarded. -/
def createConversation (env : BackendEnv) (projId : Option Str)
    (name : Option Str) : Except Str Str :=
  if respOk env.createStatus then .ok env.freshUuid
  else .error (str "Failed to create conversation: " ++ natStr env.createStatus)

/-- `sendMessage`: posts the processed message body and returns the
response text on 2xx. -/
def sendMessageCall (env : BackendEnv) (message : Str) : Except Str Str :=
  if respOk env.sendStatus then .ok env.sendBody
  else .error (str "Failed to send message: " ++ natStr env.sendStatus)

/-- The transcript fetch inside `askClaude`. -/
def fetchTranscriptCall (env : BackendEnv) : Except Str (Option ChatResponse) :=
  if respOk env.chatStatus then .ok env.chatBody
  else .error (str "Failed to retrieve messages: " ++ natStr env.chatStatus)

/-- The observable backend interactions of one `askClaude` run. -/
inductive ApiCall
  | organizationsList
  | conversationCreate (req : CreateRequest)
  | messagePost (body : MessageBody)
  | delay (ms : Nat)
  | transcriptFetch
deriving DecidableEq

/-- The value resolved by a successful `askClaude` run. -/
structure AskResult where
  answer : Str
  conversationId : Str
  chatUrl : Str
  newConversationCreated : Bool
deriving DecidableEq

/-- The conversation name used by `askClaude`:
`conversationTitle || Form Assistant - <date>`. -/
def conversationNameFor (env : BackendEnv) (conversationTitle : Option Str) : Str :=
  match conversationTitle with
  | some t => if t = [] then fallbackConversationName env else t
  | none => fallbackConversationName env

/-- The part of `askClaude` after the organization id is resolved:
create the conversation, post the message, wait five seconds, fetch
the transcript once and extract the answer. -/
def askClaudeRest (env : BackendEnv) (question : Str)
    (projectId conversationTitle : Option Str) :
    Except Str AskResult × List ApiCall :=
  let conversationName : Str := conversationNameFor env conversationTitle
  let req := createConversationRequest env projectId (some conversationName)
  match createConversation env projectId (some conversationName) with
  | .error e => (.error e, [.conversationCreate req])
  | .ok conversationId =>
    let body := sendMessageBody question
    match sendMessageCall env question with
    | .error e => (.error e, [.conversationCreate req, .messagePost body])
    | .ok _resp =>
      match fetchTranscriptCall env with
      | .error e =>
        (.error e,
         [.conversationCreate req, .messagePost body, .delay 5000,
          .transcriptFetch])
      | .ok chatResponse =>
        (.ok ⟨extractAnswer chatResponse, conversationId,
              str "https://claude.ai/chat/" ++ conversationId, true⟩,
         [.conversationCreate req, .messagePost body, .delay 5000,
          .transcriptFetch])

/-- `askClaude`: resolve the organization id (fetching the
organizations list only when it is not cached), then run the
conversation pipeline.  The second component is the trace of backend
interactions, in order. -/
def askClaude (env : BackendEnv) (currentOrgId : Option Str) (question : Str)
    (projectId : Option Str) (conversationTitle : Option Str) :
    Except Str AskResult × List ApiCall :=
  let orgStep : Except Str Str × List ApiCall :=
    match currentOrgId with
    | some o => (.ok o, [])
    | none =>
      match fetchOrganizations env with
      | .error e => (.error e, [.organizationsList])
      | .ok orgs =>
        match orgs with
        | [] => (.error (str "No organizations found"), [.organizationsList])
        | o :: _ => (.ok o.uuid, [.organizationsList])
  match orgStep with
  | (.error e, tr) => (.error e, tr)
  | (.ok _orgId, tr) =>
    let rest := askClaudeRest env question projectId conversationTitle
    (rest.1, tr ++ rest.2)

/- ### Page-context capture with the readability service
(context-handler.js, r.jina.ai variant) -/

/-- The body of a readability-service reply. -/
structure JinaBody where
  markdown : Option Str
deriving DecidableEq

/-- The URL markers treated as private/local indicators by
`isPublicWebpage`. -/
def privateIndicators : List Str :=
  [str "localhost", str "127.0.0.1", str "file://", str "chrome://",
   str "chrome-extension://", str "admin", str "dashboard", str "account",
   str "profile", str "settings", str "internal", str "signin", str "login",
   str "auth", str "portal"]

/-- `isPublicWebpage`: a page is judged public when its URL contains
none of the private indicators. -/
def isPublicWebpage (url : Str) : Bool :=
  !(privateIndicators.any (fun indicator => hasSub indicator url))

/-- `captureWithJina`, applied to the outcome of the readability fetch
(`Except.error` for a rejected fetch): non-2xx and missing/empty
markdown raise; long markdown is truncated with the marker. -/
def captureWithJina (fetchResult : Except Str (Nat × JinaBody)) : Except Str Str :=
  match fetchResult with
  | .error e => .error e
  | .ok (status, body) =>
    if !respOk status then
      .error (str "r.jina.ai API responded with status: " ++ natStr status)
    else
      match body.markdown with
      | none => .error (str "No markdown content returned from r.jina.ai")
      | some md =>
        if md = [] then .error (str "No markdown content returned from r.jina.ai")
        else if md.length > maxPageContentLength then
          .ok (md.take maxPageContentLength ++ truncationMarker)
        else .ok md

/-- The page environment one `capturePageContext` run observes: the
page URL, the outcome of the readability fetch, and the outcome of
running `captureDirectPageContent` against the DOM. -/
structure CaptureEnv where
  url : Str
  jinaFetch : Except Str (Nat × JinaBody)
  direct : Except Str Str

/-- The direct-scrape fallback wrapped in the outer `try`/`catch` of
`capturePageContext`: a failure yields the empty string. -/
def directOrEmpty (direct : Except Str Str) : Str :=
  match direct with
  | .ok s => s
  | .error _ => []

/-- `capturePageContext` (readability variant): query the readability
service only for public pages, fall back to direct scraping on failure
or thin output, and yield the empty string when everything fails.  The
boolean records whether the readability request was issued. -/
def capturePageContext (env : CaptureEnv) : Str × Bool :=
  if isPublicWebpage env.url then
    match captureWithJina env.jinaFetch with
    | .ok jinaContext =>
      if jinaContext.length > 100 then (jinaContext, true)
      else (directOrEmpty env.direct, true)
    | .error _ => (directOrEmpty env.direct, true)
  else (directOrEmpty env.direct, false)

/- ### Question inference (content.js, `detectFormQuestion`)

The DOM surroundings of a field are abstracted into a `FieldCtx`
recording exactly the values the source consults. -/

/-- One ancestor in the `parentElement` chain: the text content of its
first `label, .label, .form-label, h1..h6` descendant (if any), and
whether the ancestor is `document.body`. -/
structure Ancestor where
  labelText : Option Str
  isBody : Bool
deriving DecidableEq

/-- The DOM context of a form field, holding the values
`detectFormQuestion` reads. -/
structure FieldCtx where
  id : Str
  labelForText : Option Str
  placeholder : Str
  ariaLabel : Option Str
  ancestors : List Ancestor
  prevSiblingTexts : List Str
  contenteditable : Bool
  containerHeadTexts : Option (List Str)
deriving DecidableEq

/-- The ancestor walk of `detectFormQuestion`: inspect the current
ancestor's first label/heading descendant; stop with it if its trimmed
text is non-empty, otherwise move to the parent, breaking when the
parent is the document body. -/
def walkAncestors : List Ancestor → Str
  | [] => []
  | a :: rest =>
    let t : Str :=
      match a.labelText with
      | some s => trimStr s
      | none => []
    if t ≠ [] then t
    else
      match rest with
      | [] => []
      | b :: _ => if b.isBody then [] else walkAncestors rest

/-- The previous-sibling scan: the trimmed text of the nearest
preceding sibling with non-empty text content. -/
def firstPrevText : List Str → Str
  | [] => []
  | t :: rest => if trimStr t ≠ [] then trimStr t else firstPrevText rest

/-- `detectFormQuestion`, translated clause by clause from the
source's if-chain. -/
def detectFormQuestion (f : FieldCtx) : Str :=
  let q1 : Str :=
    if f.id ≠ [] then
      match f.labelForText with
      | some t => trimStr t
      | none => []
    else []
  let q2 : Str := if q1 = [] ∧ f.placeholder ≠ [] then f.placeholder else q1
  let q3 : Str :=
    if q2 = [] ∧ optStrTruthy f.ariaLabel then f.ariaLabel.getD [] else q2
  let q4 : Str := if q3 = [] then walkAncestors f.ancestors else q3
  let q5 : Str := if q4 = [] then firstPrevText f.prevSiblingTexts else q4
  let q6 : Str :=
    if q5 = [] ∧ f.contenteditable then
      match f.containerHeadTexts with
      | some (h :: _) => trimStr h
      | _ => q5
    else q5
  q6

/-- Spec-side candidate (1): the trimmed text of a `label[for]`
element referencing the field's id. -/
def candLabelFor (f : FieldCtx) : Str :=
  if f.id ≠ [] then
    match f.labelForText with
    | some t => trimStr t
    | none => []
  else []

/-- Spec-side candidate (2): the placeholder attribute, verbatim. -/
def candPlaceholder (f : FieldCtx) : Str := f.placeholder

/-- Spec-side candidate (3): the aria-label attribute. -/
def candAriaLabel (f : FieldCtx) : Str :=
  if optStrTruthy f.ariaLabel then f.ariaLabel.getD [] else []

/-- Spec-side candidate (4): the first label/heading descendant found
while walking up the ancestor chain, bounded at the document body. -/
def candAncestors (f : FieldCtx) : Str := walkAncestors f.ancestors

/-- Spec-side candidate (5): the nearest preceding sibling with
non-empty text. -/
def candPrevSibling (f : FieldCtx) : Str := firstPrevText f.prevSiblingTexts

/-- Spec-side candidate (6): for contenteditable fields, the first
heading/prompt-like element of the enclosing block container. -/
def candEditableHeading (f : FieldCtx) : Str :=
  if f.contenteditable then
    match f.containerHeadTexts with
    | some (h :: _) => trimStr h
    | _ => []
  else []

/-- First non-empty string of a candidate list, or the empty string. -/
def firstNonempty : List Str → Str
  | [] => []
  | s :: rest => if s ≠ [] then s else firstNonempty rest

/-- The spec's description of the question inferrer: the first
non-empty candidate in priority order (1)-(6). -/
def detectFormQuestionSpec (f : FieldCtx) : Str :=
  firstNonempty
    [candLabelFor f, candPlaceholder f, candAriaLabel f, candAncestors f,
     candPrevSibling f, candEditableHeading f]

/- ### Conversation titles and the enhanced prompt
(context-handler.js) -/

/-- The markdown characters stripped by `generateConversationTitle`
(`#`, `*`, `_`, `~` and the backquote). -/
def mdChars : List Char := ['#', '*', '_', '~', Char.ofNat 96]

/-- The first index of a sentence-ending character, as found by
`title.match(/[.!?]/)`. -/
def sentenceEndIdx (l : Str) : Option Nat :=
  l.findIdx? (fun c => c = '.' || c = '!' || c = '?')

/-- `generateConversationTitle`: trim the question, strip markdown
characters, shorten long questions at a sentence boundary below index
60 or hard-cut at 47 characters with an ellipsis, and add the
`Form: ` prompt prefix. -/
def generateConversationTitle (question : Str) : Str :=
  let title := trimStr question
  let title := title.filter (fun c => !mdChars.contains c)
  let title :=
    if title.length > 50 then
      match sentenceEndIdx title with
      | some i =>
        if i < 60 then title.take (i + 1) else title.take 47 ++ str "..."
      | none => title.take 47 ++ str "..."
    else title
  str "Form: " ++ title

/-- The page context assembled by the screenshot variant of
`capturePageContext` and consumed by `createEnhancedPrompt`. -/
structure PageContext where
  textContext : Str
  screenshotData : Option Str
deriving DecidableEq

/-- `createEnhancedPrompt` (screenshot variant): the instruction
envelope around the page context and question, embedding the
screenshot between image markers when one was captured. -/
def createEnhancedPrompt (question : Str) (pageContext : PageContext) : Str :=
  let intro := str "I need help filling out a form field. I\x27ll provide context from the current webpage and my specific question."
  let withShot :=
    if optStrTruthy pageContext.screenshotData then
      intro ++ str "\n\n## Screenshot of Current Page:\n<image>\n" ++
        pageContext.screenshotData.getD [] ++ str "\n</image>"
    else intro
  withShot ++ str "\n\n## Current Webpage Context:\n" ++
    (if pageContext.textContext = [] then
      str "No text context available from the current page."
     else pageContext.textContext) ++
    str "\n\n## My Question:\n" ++ question ++
    str "\n\n## Instructions:\n1. Look at the screenshot and webpage context to understand what I\x27m filling out.\n2. Provide a direct, focused answer to my question based on the context.\n3. IMPORTANT: Answer ONLY the question without any introductions, explanations, or conclusions.\n4. Do not include phrases like \"Based on the context\" or \"According to the webpage\".\n5. Keep your answer concise and to the point.\n6. Only give me the exact text that should be entered into the form field.\n7. If you\x27re uncertain about any aspect, make a reasonable best effort.\n\nJust provide the exact text for the form field:"

/- ### The trigger-click handler (content.js,
`handleClaudeButtonClick`)

The handler is split at its backend suspension point: `clickPhase1`
covers everything up to issuing the `askClaude` request, `clickPhase2`
covers the response handling including the `finally` block.  The
single-threaded page can run another click between the two phases. -/

/-- The module-level mutable state of the content script that the
handler touches. -/
structure ClickState where
  isProcessing : Bool
  currentConversationUrl : Option Str
  hasActiveElement : Bool
deriving DecidableEq

/-- The externally visible actions a click run performs. -/
inductive ClickAction
  | openTab (url : Str)
  | notify (msg : Str)
  | insertText (answer : Str)
  | scheduleClearUrl (ms : Nat)
deriving DecidableEq

/-- The asynchronous inputs of one click run: settings, the inferred
and the interactively prompted question, and the captured page
context. -/
structure ClickEnv where
  autoDetect : Bool
  fieldCtx : FieldCtx
  promptedQuestion : Str
  pageContext : PageContext
deriving DecidableEq

/-- Where `clickPhase1` ends: the shortcut that opens the cached
conversation, an ignored click without an active field, a cancelled
run, or a backend request left awaiting its response. -/
inductive Phase1
  | openedExisting (url : Str)
  | noActiveElement
  | cancelled (st : ClickState) (acts : List ClickAction)
  | requested (st : ClickState) (acts : List ClickAction) (prompt : Str)
      (title : Str)
deriving DecidableEq

/-- The first half of `handleClaudeButtonClick`: the processing/cached
URL shortcut, the active-element guard, entering the processing state,
question detection or prompting, cancellation (including the `finally`
block it triggers), and composing the backend request. -/
def clickPhase1 (st : ClickState) (env : ClickEnv) : Phase1 :=
  if st.isProcessing && optStrTruthy st.currentConversationUrl then
    .openedExisting (st.currentConversationUrl.getD [])
  else if !st.hasActiveElement then
    .noActiveElement
  else
    let st1 : ClickState := { st with isProcessing := true }
    let detected : Str :=
      if env.autoDetect then detectFormQuestion env.fieldCtx else []
    let question : Str :=
      if detected = [] then env.promptedQuestion else detected
    if question = [] then
      .cancelled
        { st1 with isProcessing := false, currentConversationUrl := none }
        [.scheduleClearUrl 10000]
    else
      .requested st1 [] (createEnhancedPrompt question env.pageContext)
        (generateConversationTitle question)

/-- The response delivered to the content script for its `askClaude`
message: an error, an empty reply, or an answer with an optional
conversation URL. -/
structure ClaudeAnswer where
  answer : Str
  chatUrl : Option Str
deriving DecidableEq

/-- The second half of `handleClaudeButtonClick`: response handling,
the containment check before insertion, the `catch` branch, and the
`finally` block that resets the processing state and schedules the
conversation-URL clearing 10 seconds later. -/
def clickPhase2 (st : ClickState) (result : Except Str (Option ClaudeAnswer))
    (elementInDocument : Bool) : ClickState × List ClickAction :=
  match result with
  | .error msg =>
    ({ st with isProcessing := false },
     [.notify (str "Error: " ++
        (if msg = [] then str "Could not get response from Claude" else msg)),
      .scheduleClearUrl 10000])
  | .ok none =>
    ({ st with isProcessing := false },
     [.notify (str "Error getting response from Claude. Please try again."),
      .scheduleClearUrl 10000])
  | .ok (some response) =>
    if response.answer = [] then
      ({ st with isProcessing := false },
       [.notify (str "Error getting response from Claude. Please try again."),
        .scheduleClearUrl 10000])
    else
      let st1 : ClickState :=
        if optStrTruthy response.chatUrl then
          { st with currentConversationUrl := response.chatUrl }
        else st
      if elementInDocument then
        ({ st1 with isProcessing := false },
         [.insertText response.answer,
          .notify (str "Claude has filled the field successfully!"),
          .scheduleClearUrl 10000])
      else
        ({ st1 with isProcessing := false },
         [.notify (str "Error: The form field is no longer available"),
          .scheduleClearUrl 10000])

/-- The callback of the timeout scheduled in the `finally` block:
clear the cached conversation URL. -/
def clearUrlTimerCallback (st : ClickState) : ClickState :=
  { st with currentConversationUrl := none }

/- ### The inserter (content.js, `insertTextIntoElement`) and the
field-detector selector list -/

/-- The aspects of a DOM element consulted by the inserter and the
selector list: tag name, the `type` attribute, the IDL default for
inputs, classes, roles and current content. -/
structure Elem where
  tagName : Str
  typeAttr : Option Str
  contenteditableAttr : Option Str
  classes : List Str
  role : Option Str
  dataComponent : Bool
  dataSlateEditor : Option Str
  inCellContainer : Bool
  value : Str
  innerHTML : Str
deriving DecidableEq

/-- The IDL `type` of an input element: the attribute value, with
`text` as the default when the attribute is absent. -/
def idlType (e : Elem) : Str :=
  match e.typeAttr with
  | some t => t
  | none => str "text"

/-- `insertTextIntoElement`: write `.value` for textareas and text
inputs, `.innerHTML` for `contenteditable="true"` elements, and leave
every other element unchanged (the remaining branches only dispatch
events). -/
def insertTextIntoElement (e : Elem) (text : Str) : Elem :=
  if e.tagName = str "TEXTAREA" ∨
      (e.tagName = str "INPUT" ∧ idlType e = str "text") then
    { e with value := text }
  else if e.contenteditableAttr = some (str "true") then
    { e with innerHTML := text }
  else e

/-- The `FORM_ELEMENTS` selector list of the field detector, matched
against the element model (descendant selectors are represented by the
`inCellContainer` flag). -/
def matchesFormElements (e : Elem) : Bool :=
  (e.tagName = str "INPUT" && e.typeAttr = some (str "text")) ||
  e.tagName = str "TEXTAREA" ||
  e.contenteditableAttr = some (str "true") ||
  (e.tagName = str "INPUT" && e.typeAttr = some (str "search")) ||
  e.classes.contains (str "form-control") ||
  e.classes.contains (str "cell-input") ||
  e.classes.contains (str "input") ||
  (e.inCellContainer && (e.tagName = str "INPUT" || e.tagName = str "TEXTAREA")) ||
  (e.tagName = str "INPUT" &&
    !(e.typeAttr = some (str "hidden") || e.typeAttr = some (str "checkbox") ||
      e.typeAttr = some (str "radio") || e.typeAttr = some (str "button") ||
      e.typeAttr = some (str "submit"))) ||
  e.role = some (str "textbox") ||
  e.classes.contains (str "ProseMirror") ||
  e.classes.contains (str "ql-editor") ||
  e.classes.contains (str "CodeMirror") ||
  e.dataSlateEditor = some (str "true")

/-- Trace predicate: the call is the conversation creation POST. -/
def isConversationCreate : ApiCall → Bool
  | .conversationCreate _ => true
  | _ => false

/-- Trace predicate: the call is the message POST. -/
def isMessagePost : ApiCall → Bool
  | .messagePost _ => true
  | _ => false

/-- Trace predicate: the call is the organizations list GET. -/
def isOrganizationsList : ApiCall → Bool
  | .organizationsList => true
  | _ => false

/-- Trace predicate: the call is the transcript GET. -/
def isTranscriptFetch : ApiCall → Bool
  | .transcriptFetch => true
  | _ => false

/-! ## Theorems -/

/- ### Basic lemmas about the string primitives -/

theorem splitFirst_cons (pat : Str) (x : Char) (xs : Str) :
    splitFirst pat (x :: xs) =
      if isPrefOf pat (x :: xs) then some ([], (x :: xs).drop pat.length)
      else
        match splitFirst pat xs with
        | none => none
        | some (pre, post) => some (x :: pre, post) := rfl

theorem isPrefOf_append (l r : Str) : isPrefOf l (l ++ r) = true := by
  induction l with
  | nil => rfl
  | cons a as ih => simp [isPrefOf, ih]

theorem splitFirst_of_first_occurrence (hc : Char) (pt pre suf : Str)
    (hpre : ∀ a ∈ pre, a ≠ hc) :
    splitFirst (hc :: pt) (pre ++ (hc :: pt) ++ suf) = some (pre, suf) := by
  induction pre with
  | nil =>
    rw [show ([] : Str) ++ (hc :: pt) ++ suf = hc :: (pt ++ suf) by simp]
    rw [splitFirst_cons]
    have hp : isPrefOf (hc :: pt) (hc :: (pt ++ suf)) = true := by
      have := isPrefOf_append (hc :: pt) suf
      simpa using this
    rw [hp]
    simp only [if_true, List.length_cons]
    rw [List.drop_succ_cons, List.drop_left]
  | cons a pre' ih =>
    have ha : a ≠ hc := hpre a (by simp)
    rw [show (a :: pre') ++ (hc :: pt) ++ suf = a :: (pre' ++ (hc :: pt) ++ suf) by simp]
    rw [splitFirst_cons]
    have hnp : isPrefOf (hc :: pt) (a :: (pre' ++ (hc :: pt) ++ suf)) = false := by
      have hne : ¬ (hc = a) := fun h => ha h.symm
      simp [isPrefOf, hne]
    rw [hnp]
    simp only [Bool.false_eq_true, if_false]
    rw [ih (fun b hb => hpre b (by simp [hb]))]

theorem splitFirst_isSome_append (pat a b : Str) :
    (splitFirst pat (a ++ pat ++ b)).isSome = true := by
  induction a with
  | nil =>
    cases pat with
    | nil => cases b <;> simp [splitFirst, isPrefOf]
    | cons p ps =>
      rw [show ([] : Str) ++ (p :: ps) ++ b = p :: (ps ++ b) by simp]
      rw [splitFirst_cons]
      have hp : isPrefOf (p :: ps) (p :: (ps ++ b)) = true := by
        have := isPrefOf_append (p :: ps) b
        simpa using this
      rw [hp]
      simp
  | cons x xs ih =>
    rw [show (x :: xs) ++ pat ++ b = x :: (xs ++ pat ++ b) by simp]
    rw [splitFirst_cons]
    by_cases h : isPrefOf pat (x :: (xs ++ pat ++ b)) = true
    · rw [h]
      simp
    · rw [Bool.not_eq_true] at h
      rw [h]
      simp only [Bool.false_eq_true, if_false]
      rcases ho : splitFirst pat (xs ++ pat ++ b) with _ | ⟨pre, post⟩
      · rw [ho] at ih; simp at ih
      · simp

theorem hasSub_append (pat a b : Str) : hasSub pat (a ++ pat ++ b) = true := by
  unfold hasSub
  exact splitFirst_isSome_append pat a b

/- ### Lemmas: `cleanPageContent` is the identity on a plain line -/

theorem capRunGo_no_occurrence (c : Char) (cap : Nat) (l : Str)
    (h : ∀ a ∈ l, a ≠ c) :
    ∀ k, capRunGo c cap k l = List.replicate (min k cap) c ++ l := by
  induction l with
  | nil => intro k; simp [capRunGo]
  | cons x xs ih =>
    intro k
    have hx : x ≠ c := h x (by simp)
    rw [capRunGo]
    rw [if_neg hx]
    rw [ih (fun a ha => h a (by simp [ha])) 0]
    simp

theorem capRun_no_occurrence (c : Char) (cap : Nat) (l : Str)
    (h : ∀ a ∈ l, a ≠ c) : capRun c cap l = l := by
  unfold capRun
  rw [capRunGo_no_occurrence c cap l h 0]
  simp

theorem splitOnChar_no_occurrence (c : Char) (l : Str)
    (h : ∀ a ∈ l, a ≠ c) : splitOnChar c l = [l] := by
  induction l with
  | nil => rfl
  | cons x xs ih =>
    have hx : x ≠ c := h x (by simp)
    rw [splitOnChar]
    rw [ih (fun a ha => h a (by simp [ha]))]
    simp [hx]

theorem dropWhile_all_false (p : Char → Bool) (l : Str)
    (h : ∀ a ∈ l, p a = false) : List.dropWhile p l = l := by
  cases l with
  | nil => rfl
  | cons x xs =>
    rw [List.dropWhile_cons]
    simp [h x (by simp)]

theorem trimStr_no_wsp (l : Str) (h : ∀ a ∈ l, isWsp a = false) :
    trimStr l = l := by
  unfold trimStr
  rw [dropWhile_all_false _ _ h]
  rw [dropWhile_all_false _ _ (fun a ha => h a (by simpa using ha))]
  simp

/-- A string of plain letters (no whitespace, no control characters) is
fixed by `cleanPageContent`, provided it is longer than 10 characters. -/
theorem cleanPageContent_plain (l : Str)
    (hplain : ∀ a ∈ l, a ≠ '\n' ∧ a ≠ ' ' ∧ isCtrlChar a = false ∧ isWsp a = false)
    (hlen : 10 < l.length) :
    cleanPageContent l = l := by
  unfold cleanPageContent
  rw [capRun_no_occurrence _ _ _ (fun a ha => (hplain a ha).1)]
  rw [capRun_no_occurrence _ _ _ (fun a ha => (hplain a ha).2.1)]
  rw [show List.filter (fun ch => !isCtrlChar ch) l = l from
    List.filter_eq_self.mpr (fun a ha => by simp [(hplain a ha).2.2.1])]
  rw [splitOnChar_no_occurrence _ _ (fun a ha => (hplain a ha).1)]
  have htr : trimStr l = l := trimStr_no_wsp l (fun a ha => (hplain a ha).2.2.2)
  rw [show List.filter
        (fun line => 10 < (trimStr line).length || trimStr line = []) [l] = [l] by
      simp [List.filter_cons, htr, hlen]]
  simp [List.intercalate]

/-- C5: a page whose extracted, cleaned content exceeds 20,000
characters yields a direct-scrape context consisting of the page header
followed by exactly the first 20,000 characters of the cleaned content
and the literal truncation marker; cleaned content of at most 20,000
characters is passed through unchanged after the header. -/
theorem C5_truncation (title url extracted : Str) :
    ((cleanPageContent extracted).length > maxPageContentLength →
      captureDirectPageContent title url extracted =
        pageHeader title url ++
          ((cleanPageContent extracted).take maxPageContentLength ++
            truncationMarker)) ∧
    ((cleanPageContent extracted).length ≤ maxPageContentLength →
      captureDirectPageContent title url extracted =
        pageHeader title url ++ cleanPageContent extracted) := by
  constructor <;> intro h <;> unfold captureDirectPageContent truncateContent
  · rw [if_pos h]
  · rw [if_neg (by omega)]

/-- Witness for C5 at a concrete 20,001-character page content. -/
theorem C5_truncation_witness :
    (cleanPageContent (List.replicate 20001 'a')).length > maxPageContentLength ∧
    captureDirectPageContent [] [] (List.replicate 20001 'a') =
      pageHeader [] [] ++
        ((cleanPageContent (List.replicate 20001 'a')).take maxPageContentLength ++
          truncationMarker) := by
  have hplain : ∀ a ∈ List.replicate 20001 'a',
      a ≠ '\n' ∧ a ≠ ' ' ∧ isCtrlChar a = false ∧ isWsp a = false := by
    intro a ha
    have hae := List.eq_of_mem_replicate ha
    subst hae
    exact ⟨by decide, by decide, by decide, by decide⟩
  have hcl : cleanPageContent (List.replicate 20001 'a') = List.replicate 20001 'a' :=
    cleanPageContent_plain _ hplain (by rw [List.length_replicate]; omega)
  have hlen : (cleanPageContent (List.replicate 20001 'a')).length > maxPageContentLength := by
    rw [hcl, List.length_replicate]
    unfold maxPageContentLength
    omega
  exact ⟨hlen, (C5_truncation [] [] _).1 hlen⟩

/-- C4: `detectFormQuestion` returns the first non-empty candidate in
the priority order label-for text, placeholder (verbatim), aria-label,
ancestor-walk label/heading, preceding sibling text, contenteditable
container heading — and the empty string when no candidate exists; in
particular a field carrying only `placeholder="Enter your name"`
yields exactly that placeholder. -/
theorem C4_detectFormQuestion_priority :
    (∀ f : FieldCtx, detectFormQuestion f = detectFormQuestionSpec f) ∧
    detectFormQuestion
      ⟨[], none, str "Enter your name", none, [], [], false, none⟩ =
      str "Enter your name" := by
  constructor
  · intro f
    by_cases h1 : candLabelFor f = []
    · by_cases h2 : f.placeholder = []
      · by_cases h3 : optStrTruthy f.ariaLabel = true
        · rcases hal : f.ariaLabel with _ | al
          · rw [hal] at h3
            simp [optStrTruthy] at h3
          · have hne : al ≠ [] := by
              rw [hal] at h3
              simpa [optStrTruthy] using h3
            have h1u := h1
            unfold candLabelFor at h1u
            simp [detectFormQuestion, detectFormQuestionSpec, firstNonempty,
              candLabelFor, candPlaceholder, candAriaLabel, candAncestors,
              candPrevSibling, candEditableHeading, optStrTruthy,
              h1u, h2, hal, hne]
        · by_cases h4 : walkAncestors f.ancestors = []
          · by_cases h5 : firstPrevText f.prevSiblingTexts = []
            · by_cases h6 : f.contenteditable = true
              · rcases hct : f.containerHeadTexts with _ | ⟨_ | ⟨h0, hts⟩⟩
                · have h1u := h1
                  unfold candLabelFor at h1u
                  simp [detectFormQuestion, detectFormQuestionSpec,
                    firstNonempty, candLabelFor, candPlaceholder,
                    candAriaLabel, candAncestors, candPrevSibling,
                    candEditableHeading, h1u, h2, h3, h4, h5, h6, hct]
                · have h1u := h1
                  unfold candLabelFor at h1u
                  simp [detectFormQuestion, detectFormQuestionSpec,
                    firstNonempty, candLabelFor, candPlaceholder,
                    candAriaLabel, candAncestors, candPrevSibling,
                    candEditableHeading, h1u, h2, h3, h4, h5, h6, hct]
                · have h1u := h1
                  unfold candLabelFor at h1u
                  by_cases h7 : trimStr h0 = [] <;>
                  simp [detectFormQuestion, detectFormQuestionSpec,
                    firstNonempty, candLabelFor, candPlaceholder,
                    candAriaLabel, candAncestors, candPrevSibling,
                    candEditableHeading, h1u, h2, h3, h4, h5, h6, hct, h7]
              · have h1u := h1
                unfold candLabelFor at h1u
                simp [detectFormQuestion, detectFormQuestionSpec,
                  firstNonempty, candLabelFor, candPlaceholder, candAriaLabel,
                  candAncestors, candPrevSibling, candEditableHeading,
                  h1u, h2, h3, h4, h5, h6]
            · have h1u := h1
              unfold candLabelFor at h1u
              simp [detectFormQuestion, detectFormQuestionSpec, firstNonempty,
                candLabelFor, candPlaceholder, candAriaLabel, candAncestors,
                candPrevSibling, candEditableHeading, h1u, h2, h3, h4, h5]
          · have h1u := h1
            unfold candLabelFor at h1u
            simp [detectFormQuestion, detectFormQuestionSpec, firstNonempty,
              candLabelFor, candPlaceholder, candAriaLabel, candAncestors,
              candPrevSibling, candEditableHeading, h1u, h2, h3, h4]
      · have h1u := h1
        unfold candLabelFor at h1u
        simp [detectFormQuestion, detectFormQuestionSpec, firstNonempty,
          candLabelFor, candPlaceholder, candAriaLabel, candAncestors,
          candPrevSibling, candEditableHeading, h1u, h2]
    · have hid : f.id ≠ [] := by
        intro h
        apply h1
        unfold candLabelFor
        simp [h]
      rcases hlf : f.labelForText with _ | lt
      · exfalso
        apply h1
        unfold candLabelFor
        simp [hlf]
      · have hne : trimStr lt ≠ [] := by
          intro h
          apply h1
          unfold candLabelFor
          simp [hlf, h]
        simp [detectFormQuestion, detectFormQuestionSpec, firstNonempty,
          candLabelFor, candPlaceholder, candAriaLabel, candAncestors,
          candPrevSibling, candEditableHeading, hid, hlf, hne]
  · rfl

/-- C10: the inserter writes `.value` only to textareas and inputs of
IDL type exactly `text`, writes `.innerHTML` only to elements with
`contenteditable="true"`, and returns every other element unchanged,
even though the detector's selector list accepts further elements such
as search inputs or `.form-control` nodes. -/
theorem C10_insertTextIntoElement_writes (e : Elem) (text : Str) :
    ((e.tagName = str "TEXTAREA" ∨
        (e.tagName = str "INPUT" ∧ idlType e = str "text")) →
      insertTextIntoElement e text = { e with value := text }) ∧
    (¬(e.tagName = str "TEXTAREA" ∨
        (e.tagName = str "INPUT" ∧ idlType e = str "text")) →
      e.contenteditableAttr = some (str "true") →
      insertTextIntoElement e text = { e with innerHTML := text }) ∧
    (¬(e.tagName = str "TEXTAREA" ∨
        (e.tagName = str "INPUT" ∧ idlType e = str "text")) →
      e.contenteditableAttr ≠ some (str "true") →
      insertTextIntoElement e text = e) := by
  refine ⟨?_, ?_, ?_⟩
  · intro h
    unfold insertTextIntoElement
    rw [if_pos h]
  · intro h hce
    unfold insertTextIntoElement
    rw [if_neg h, if_pos hce]
  · intro h hce
    unfold insertTextIntoElement
    rw [if_neg h, if_neg hce]

/-- C1: the trigger control's state machine.  A click while processing
with a cached conversation URL opens that URL and issues no request;
every run that issues a backend request enters the processing state
first; cancellation and every response outcome (success, error,
missing field) leave the processing flag false; and every completed
run schedules the 10-second timeout whose callback clears the cached
conversation URL. -/
theorem C1_trigger_state_machine :
    (∀ (st : ClickState) (env : ClickEnv) (url : Str),
      st.isProcessing = true → st.currentConversationUrl = some url →
      url ≠ [] → clickPhase1 st env = .openedExisting url) ∧
    (∀ (st : ClickState) (env : ClickEnv) (st' : ClickState)
        (acts : List ClickAction) (prompt title : Str),
      clickPhase1 st env = .requested st' acts prompt title →
      st'.isProcessing = true) ∧
    (∀ (st : ClickState) (env : ClickEnv) (st' : ClickState)
        (acts : List ClickAction),
      clickPhase1 st env = .cancelled st' acts →
      st'.isProcessing = false ∧ st'.currentConversationUrl = none ∧
      ClickAction.scheduleClearUrl 10000 ∈ acts) ∧
    (∀ (st : ClickState) (result : Except Str (Option ClaudeAnswer))
        (inDoc : Bool),
      (clickPhase2 st result inDoc).1.isProcessing = false ∧
      ClickAction.scheduleClearUrl 10000 ∈ (clickPhase2 st result inDoc).2) ∧
    (∀ st : ClickState, (clearUrlTimerCallback st).currentConversationUrl = none) := by
  refine ⟨?_, ?_, ?_, ?_, ?_⟩
  · intro st env url hp hu hne
    unfold clickPhase1
    rw [hp, hu]
    have : optStrTruthy (some url) = true := by
      simp [optStrTruthy, hne]
    simp [this]
  · intro st env st' acts prompt title h
    unfold clickPhase1 at h
    by_cases hA : (st.isProcessing && optStrTruthy st.currentConversationUrl) = true <;>
    by_cases hB : st.hasActiveElement = true <;>
    by_cases hAD : env.autoDetect = true <;>
    by_cases hD : detectFormQuestion env.fieldCtx = [] <;>
    by_cases hP : env.promptedQuestion = [] <;>
    simp_all <;>
    (try (rcases h with ⟨h1, h2⟩; rw [← h1]))
  · intro st env st' acts h
    unfold clickPhase1 at h
    by_cases hA : (st.isProcessing && optStrTruthy st.currentConversationUrl) = true <;>
    by_cases hB : st.hasActiveElement = true <;>
    by_cases hAD : env.autoDetect = true <;>
    by_cases hD : detectFormQuestion env.fieldCtx = [] <;>
    by_cases hP : env.promptedQuestion = [] <;>
    simp_all <;>
    (try (rcases h with ⟨h1, h2⟩; rw [← h1, ← h2]; simp))
  · intro st result inDoc
    rcases result with msg | _ | resp
    · simp [clickPhase2]
    · simp [clickPhase2]
    · unfold clickPhase2
      by_cases ha : resp.answer = [] <;>
      by_cases hu : optStrTruthy resp.chatUrl = true <;>
      cases inDoc <;>
      simp [ha, hu]
  · intro st
    rfl

/-- Witness for C1 at a concrete processing state with a cached URL
and at a concrete completed run. -/
theorem C1_trigger_state_machine_witness :
    clickPhase1 ⟨true, some (str "https://claude.ai/chat/c1"), true⟩
        ⟨false, ⟨[], none, [], none, [], [], false, none⟩, [], ⟨[], none⟩⟩ =
      .openedExisting (str "https://claude.ai/chat/c1") ∧
    (clickPhase2 ⟨true, none, true⟩ (.ok (some ⟨str "hi", none⟩)) true).1.isProcessing =
      false := by
  constructor
  · exact C1_trigger_state_machine.1
      ⟨true, some (str "https://claude.ai/chat/c1"), true⟩
      ⟨false, ⟨[], none, [], none, [], [], false, none⟩, [], ⟨[], none⟩⟩
      (str "https://claude.ai/chat/c1") rfl rfl (by decide)
  · exact (C1_trigger_state_machine.2.2.2.1
      ⟨true, none, true⟩ (.ok (some ⟨str "hi", none⟩)) true).1

/-- C7: when the response arrives with a non-empty answer but the
active field is no longer contained in the document, the handler emits
only the field-unavailable notification (plus the URL-clearing
timeout) and performs no insertion. -/
theorem C7_field_removed_no_insert (st : ClickState) (resp : ClaudeAnswer)
    (hans : resp.answer ≠ []) :
    (clickPhase2 st (.ok (some resp)) false).2 =
      [ClickAction.notify (str "Error: The form field is no longer available"),
       ClickAction.scheduleClearUrl 10000] ∧
    ∀ t, ClickAction.insertText t ∉ (clickPhase2 st (.ok (some resp)) false).2 := by
  have h : (clickPhase2 st (.ok (some resp)) false).2 =
      [ClickAction.notify (str "Error: The form field is no longer available"),
       ClickAction.scheduleClearUrl 10000] := by
    simp only [clickPhase2]
    rw [if_neg hans]
    by_cases hu : optStrTruthy resp.chatUrl = true <;> simp [hu]
  refine ⟨h, ?_⟩
  intro t
  rw [h]
  simp

/-- Witness for C7 at a concrete response and state. -/
theorem C7_field_removed_no_insert_witness :
    (clickPhase2 ⟨true, none, true⟩ (.ok (some ⟨str "hi", none⟩)) false).2 =
      [ClickAction.notify (str "Error: The form field is no longer available"),
       ClickAction.scheduleClearUrl 10000] :=
  (C7_field_removed_no_insert ⟨true, none, true⟩ ⟨str "hi", none⟩ (by decide)).1

/-- C9: `extractAnswer` returns the empty string on every malformed
transcript shape — missing response, missing `chat_messages`, fewer
than two messages, a second message without content blocks or without
text — and an empty answer makes the click handler notify an error
and insert nothing. -/
theorem C9_extractAnswer_total :
    extractAnswer none = [] ∧
    (∀ r : ChatResponse, r.chat_messages = none → extractAnswer (some r) = []) ∧
    (∀ msgs : List ChatMessage, msgs.length < 2 →
      extractAnswer (some ⟨some msgs⟩) = []) ∧
    (∀ (msgs : List ChatMessage) (m : ChatMessage), msgs[1]? = some m →
      m.content = none → extractAnswer (some ⟨some msgs⟩) = []) ∧
    (∀ (msgs : List ChatMessage) (m : ChatMessage), msgs[1]? = some m →
      m.content = some [] → extractAnswer (some ⟨some msgs⟩) = []) ∧
    (∀ (msgs : List ChatMessage) (m : ChatMessage) (b : ContentBlock)
        (blocks : List ContentBlock), msgs[1]? = some m →
      m.content = some (b :: blocks) → b.text = none →
      extractAnswer (some ⟨some msgs⟩) = []) ∧
    (∀ (st : ClickState) (inDoc : Bool) (url : Option Str),
      (clickPhase2 st (.ok (some ⟨[], url⟩)) inDoc).2 =
        [ClickAction.notify
          (str "Error getting response from Claude. Please try again."),
         ClickAction.scheduleClearUrl 10000] ∧
      (∀ t, ClickAction.insertText t ∉
        (clickPhase2 st (.ok (some ⟨[], url⟩)) inDoc).2)) := by
  refine ⟨rfl, ?_, ?_, ?_, ?_, ?_, ?_⟩
  · intro r h
    simp [extractAnswer, h]
  · intro msgs h
    simp [extractAnswer, List.getElem?_eq_none (show msgs.length ≤ 1 by omega)]
  · intro msgs m h hc
    simp [extractAnswer, h, hc]
  · intro msgs m h hc
    simp [extractAnswer, h, hc]
  · intro msgs m b blocks h hc ht
    simp [extractAnswer, h, hc, ht]
  · intro st inDoc url
    have h : (clickPhase2 st (.ok (some ⟨[], url⟩)) inDoc).2 =
        [ClickAction.notify
          (str "Error getting response from Claude. Please try again."),
         ClickAction.scheduleClearUrl 10000] := by
      simp [clickPhase2]
    refine ⟨h, ?_⟩
    intro t
    rw [h]
    simp

/-- Witness for C9 at a concrete one-message transcript. -/
theorem C9_extractAnswer_total_witness :
    extractAnswer (some ⟨some [⟨some [⟨some (str "q")⟩]⟩]⟩) = [] :=
  C9_extractAnswer_total.2.2.1 [⟨some [⟨some (str "q")⟩]⟩] (by decide)

/-- C6: the readability service is queried only for pages judged
public; a failed readability capture or thin output falls back to the
direct scrape; and when the direct scrape itself fails while no thick
readability content is available, the context is the empty string
rather than an exception. -/
theorem C6_capture_fallbacks :
    (∀ env : CaptureEnv, (capturePageContext env).2 = true →
      isPublicWebpage env.url = true) ∧
    (∀ (env : CaptureEnv) (e : Str), captureWithJina env.jinaFetch = .error e →
      (capturePageContext env).1 = directOrEmpty env.direct) ∧
    (∀ (env : CaptureEnv) (s : Str), captureWithJina env.jinaFetch = .ok s →
      s.length < 100 → (capturePageContext env).1 = directOrEmpty env.direct) ∧
    (∀ (env : CaptureEnv) (m : Str), env.direct = .error m →
      isPublicWebpage env.url = false → (capturePageContext env).1 = []) ∧
    (∀ (env : CaptureEnv) (m e : Str), env.direct = .error m →
      captureWithJina env.jinaFetch = .error e → (capturePageContext env).1 = []) := by
  refine ⟨?_, ?_, ?_, ?_, ?_⟩
  · intro env h
    by_contra hpub
    rw [Bool.not_eq_true] at hpub
    unfold capturePageContext at h
    rw [hpub] at h
    simp at h
  · intro env e h
    unfold capturePageContext
    rw [h]
    split_ifs <;> rfl
  · intro env s h hlen
    by_cases hpub : isPublicWebpage env.url = true
    · simp only [capturePageContext, hpub, h, if_true]
      rw [if_neg (show ¬ 100 < s.length by omega)]
    · simp [capturePageContext, hpub]
  · intro env m h hpub
    unfold capturePageContext
    rw [hpub]
    simp [directOrEmpty, h]
  · intro env m e h hj
    unfold capturePageContext
    rw [hj]
    split_ifs <;> simp [directOrEmpty, h]

/-- Witness for C6: a localhost URL is judged private, so a failing
direct scrape yields the empty context. -/
theorem C6_capture_fallbacks_witness :
    (capturePageContext
      ⟨str "http://localhost/x", .error (str "offline"),
       .error (str "boom")⟩).1 = [] :=
  C6_capture_fallbacks.2.2.2.1
    ⟨str "http://localhost/x", .error (str "offline"), .error (str "boom")⟩
    (str "boom") rfl (by decide)

/-- Witness for C10: a search input with the `form-control` class is
accepted by the selector list but left unchanged by the inserter. -/
theorem C10_insertTextIntoElement_writes_witness :
    matchesFormElements
      ⟨str "INPUT", some (str "search"), none, [str "form-control"], none,
       false, none, false, str "old", str "prev"⟩ = true ∧
    insertTextIntoElement
      ⟨str "INPUT", some (str "search"), none, [str "form-control"], none,
       false, none, false, str "old", str "prev"⟩ (str "answer") =
      ⟨str "INPUT", some (str "search"), none, [str "form-control"], none,
       false, none, false, str "old", str "prev"⟩ := by
  constructor
  · decide
  · exact (C10_insertTextIntoElement_writes
      ⟨str "INPUT", some (str "search"), none, [str "form-control"], none,
       false, none, false, str "old", str "prev"⟩ (str "answer")).2.2
      (by decide) (by decide)

theorem splitFirst_first_occ (pat pre suf : Str) (hne : pat ≠ [])
    (hpre : ∀ a ∈ pre, pat.head? ≠ some a) :
    splitFirst pat (pre ++ pat ++ suf) = some (pre, suf) := by
  cases pat with
  | nil => exact absurd rfl hne
  | cons p pt =>
    exact splitFirst_of_first_occurrence p pt pre suf
      (fun a ha h => hpre a ha (by rw [h]; rfl))

theorem sendMessageBody_image (pre c suf : Str)
    (hpre : '<' ∉ pre) (hc : '<' ∉ c) (hcne : c ≠ []) :
    sendMessageBody (pre ++ imgOpenTag ++ c ++ imgCloseTag ++ suf) =
      ⟨pre ++ suf,
       [⟨str "screenshot.png", (3 * (trimStr c).length + 3) / 4, trimStr c⟩]⟩ := by
  have h1 : splitFirst imgOpenTag (pre ++ imgOpenTag ++ c ++ imgCloseTag ++ suf) =
      some (pre, c ++ imgCloseTag ++ suf) := by
    rw [show pre ++ imgOpenTag ++ c ++ imgCloseTag ++ suf =
        pre ++ imgOpenTag ++ (c ++ imgCloseTag ++ suf) by
      simp [List.append_assoc]]
    refine splitFirst_first_occ imgOpenTag pre (c ++ imgCloseTag ++ suf)
      (by decide) ?_
    intro a ha hh
    have hhead : imgOpenTag.head? = some '<' := rfl
    rw [hhead] at hh
    injection hh with h2
    rw [← h2] at ha
    exact hpre ha
  have h2 : splitFirst imgCloseTag (c ++ imgCloseTag ++ suf) = some (c, suf) := by
    refine splitFirst_first_occ imgCloseTag c suf (by decide) ?_
    intro a ha hh
    have hhead : imgCloseTag.head? = some '<' := rfl
    rw [hhead] at hh
    injection hh with h3
    rw [← h3] at ha
    exact hc ha
  unfold sendMessageBody hasSub
  rw [h1]
  simp only [Option.isSome_some, if_true]
  rw [h2]
  simp only []
  rw [if_neg hcne]

theorem extractAnswer_shape (msgs : List ChatMessage) (m : ChatMessage)
    (b : ContentBlock) (blocks : List ContentBlock) (t : Str)
    (h1 : msgs[1]? = some m) (h2 : m.content = some (b :: blocks))
    (h3 : b.text = some t) :
    extractAnswer (some ⟨some msgs⟩) = t := by
  simp [extractAnswer, h1, h2, h3]

theorem askClaude_success (env : BackendEnv) (oid : Option Str)
    (question : Str) (projectId conversationTitle : Option Str)
    (hcr : respOk env.createStatus = true) (hsd : respOk env.sendStatus = true)
    (hch : respOk env.chatStatus = true)
    (horg : oid = none → respOk env.orgsStatus = true ∧ env.orgsBody ≠ []) :
    ∃ tr0 : List ApiCall,
      (tr0 = [] ∨ tr0 = [ApiCall.organizationsList]) ∧
      askClaude env oid question projectId conversationTitle =
        (.ok ⟨extractAnswer env.chatBody, env.freshUuid,
              str "https://claude.ai/chat/" ++ env.freshUuid, true⟩,
         tr0 ++
           [ApiCall.conversationCreate
              (createConversationRequest env projectId
                (some (conversationNameFor env conversationTitle))),
            ApiCall.messagePost (sendMessageBody question),
            ApiCall.delay 5000, ApiCall.transcriptFetch]) := by
  rcases oid with _ | o
  · obtain ⟨ho, hb⟩ := horg rfl
    rcases hob : env.orgsBody with _ | ⟨o, rest⟩
    · exact absurd hob hb
    · refine ⟨[ApiCall.organizationsList], Or.inr rfl, ?_⟩
      simp [askClaude, askClaudeRest, fetchOrganizations, createConversation,
        sendMessageCall, fetchTranscriptCall, ho, hob, hcr, hsd, hch]
  · refine ⟨[], Or.inl rfl, ?_⟩
    simp [askClaude, askClaudeRest, createConversation, sendMessageCall,
      fetchTranscriptCall, hcr, hsd, hch]

/-- C2: a request whose backend calls all succeed creates a
conversation, posts the processed message, waits the fixed 5-second
delay, fetches the transcript exactly once, and answers with the text
of the transcript's second message; a prompt embedding a non-empty
`<image>...</image>` marker is posted with exactly one attachment and
with the marker removed. -/
theorem C2_askClaude_pipeline :
    (∀ (env : BackendEnv) (oid : Option Str) (question : Str)
        (projectId conversationTitle : Option Str),
      respOk env.createStatus = true → respOk env.sendStatus = true →
      respOk env.chatStatus = true →
      (oid = none → respOk env.orgsStatus = true ∧ env.orgsBody ≠ []) →
      ∃ (tr0 : List ApiCall) (r : AskResult),
        (tr0 = [] ∨ tr0 = [ApiCall.organizationsList]) ∧
        askClaude env oid question projectId conversationTitle =
          (.ok r,
           tr0 ++
             [ApiCall.conversationCreate
                (createConversationRequest env projectId
                  (some (conversationNameFor env conversationTitle))),
              ApiCall.messagePost (sendMessageBody question),
              ApiCall.delay 5000, ApiCall.transcriptFetch]) ∧
        (askClaude env oid question projectId conversationTitle).2.countP
          isTranscriptFetch = 1 ∧
        r.answer = extractAnswer env.chatBody ∧
        (∀ (msgs : List ChatMessage) (m : ChatMessage) (b : ContentBlock)
            (blocks : List ContentBlock) (t : Str),
          env.chatBody = some ⟨some msgs⟩ → msgs[1]? = some m →
          m.content = some (b :: blocks) → b.text = some t →
          r.answer = t)) ∧
    (∀ pre c suf : Str, '<' ∉ pre → '<' ∉ c → c ≠ [] →
      (sendMessageBody (pre ++ imgOpenTag ++ c ++ imgCloseTag ++ suf)).attachments.length = 1 ∧
      (sendMessageBody (pre ++ imgOpenTag ++ c ++ imgCloseTag ++ suf)).prompt =
        pre ++ suf) := by
  constructor
  · intro env oid question projectId conversationTitle hcr hsd hch horg
    obtain ⟨tr0, htr0, heq⟩ :=
      askClaude_success env oid question projectId conversationTitle hcr hsd hch horg
    refine ⟨tr0,
      ⟨extractAnswer env.chatBody, env.freshUuid,
       str "https://claude.ai/chat/" ++ env.freshUuid, true⟩,
      htr0, heq, ?_, rfl, ?_⟩
    · rw [heq]
      rcases htr0 with h | h <;> rw [h] <;>
        simp [List.countP_cons, List.countP_append, isTranscriptFetch]
    · intro msgs m b blocks t hbody h1 h2 h3
      show extractAnswer env.chatBody = t
      rw [hbody]
      exact extractAnswer_shape msgs m b blocks t h1 h2 h3
  · intro pre c suf hpre hc hcne
    rw [sendMessageBody_image pre c suf hpre hc hcne]
    exact ⟨rfl, rfl⟩

theorem askClaude_orgOk (env : BackendEnv) (oid : Option Str) (q : Str)
    (pid t : Option Str)
    (horg : oid = none → respOk env.orgsStatus = true ∧ env.orgsBody ≠ []) :
    ∃ tr0 : List ApiCall,
      (tr0 = [] ∨ tr0 = [ApiCall.organizationsList]) ∧
      askClaude env oid q pid t =
        ((askClaudeRest env q pid t).1, tr0 ++ (askClaudeRest env q pid t).2) := by
  rcases oid with _ | o
  · obtain ⟨ho, hb⟩ := horg rfl
    rcases hob : env.orgsBody with _ | ⟨o, rest⟩
    · exact absurd hob hb
    · exact ⟨[ApiCall.organizationsList], Or.inr rfl,
        by simp [askClaude, fetchOrganizations, ho, hob]⟩
  · exact ⟨[], Or.inl rfl, by simp [askClaude]⟩

theorem askClaudeRest_trace_cases (env : BackendEnv) (q : Str)
    (pid t : Option Str) :
    (askClaudeRest env q pid t).2 =
      [ApiCall.conversationCreate
        (createConversationRequest env pid (some (conversationNameFor env t)))] ∨
    (askClaudeRest env q pid t).2 =
      [ApiCall.conversationCreate
        (createConversationRequest env pid (some (conversationNameFor env t))),
       ApiCall.messagePost (sendMessageBody q)] ∨
    (askClaudeRest env q pid t).2 =
      [ApiCall.conversationCreate
        (createConversationRequest env pid (some (conversationNameFor env t))),
       ApiCall.messagePost (sendMessageBody q), ApiCall.delay 5000,
       ApiCall.transcriptFetch] := by
  unfold askClaudeRest
  rcases hcc : createConversation env pid (some (conversationNameFor env t)) with e | cid
  · left
    simp [hcc]
  · rcases hsm : sendMessageCall env q with e | resp
    · right; left
      simp [hcc, hsm]
    · rcases hft : fetchTranscriptCall env with e | chat
      · right; right
        simp [hcc, hsm, hft]
      · right; right
        simp [hcc, hsm, hft]

theorem askClaude_trace_split (env : BackendEnv) (oid : Option Str) (q : Str)
    (pid t : Option Str) :
    ∃ tr0 : List ApiCall,
      (tr0 = [] ∨ tr0 = [ApiCall.organizationsList]) ∧
      ((askClaude env oid q pid t).2 = tr0 ∨
       (askClaude env oid q pid t).2 = tr0 ++ (askClaudeRest env q pid t).2) := by
  rcases oid with _ | o
  · rcases hfo : fetchOrganizations env with e | orgs
    · exact ⟨[ApiCall.organizationsList], Or.inr rfl, Or.inl
        (by simp [askClaude, hfo])⟩
    · rcases orgs with _ | ⟨o, rest⟩
      · exact ⟨[ApiCall.organizationsList], Or.inr rfl, Or.inl
          (by simp [askClaude, hfo])⟩
      · exact ⟨[ApiCall.organizationsList], Or.inr rfl, Or.inr
          (by simp [askClaude, hfo])⟩
  · exact ⟨[], Or.inl rfl, Or.inr (by simp [askClaude])⟩

theorem askClaude_create_fail (env : BackendEnv) (oid : Option Str) (q : Str)
    (pid t : Option Str)
    (horg : oid = none → respOk env.orgsStatus = true ∧ env.orgsBody ≠ [])
    (hcr : respOk env.createStatus = false) :
    ∃ tr0 : List ApiCall,
      (tr0 = [] ∨ tr0 = [ApiCall.organizationsList]) ∧
      askClaude env oid q pid t =
        (.error (str "Failed to create conversation: " ++ natStr env.createStatus),
         tr0 ++
           [ApiCall.conversationCreate
             (createConversationRequest env pid (some (conversationNameFor env t)))]) := by
  obtain ⟨tr0, htr0, heq⟩ := askClaude_orgOk env oid q pid t horg
  refine ⟨tr0, htr0, ?_⟩
  rw [heq]
  have hrest : askClaudeRest env q pid t =
      (.error (str "Failed to create conversation: " ++ natStr env.createStatus),
       [ApiCall.conversationCreate
         (createConversationRequest env pid (some (conversationNameFor env t)))]) := by
    simp [askClaudeRest, createConversation, hcr]
  rw [hrest]

theorem askClaude_ok_conversationId (env : BackendEnv) (oid : Option Str)
    (q : Str) (pid t : Option Str) (r : AskResult) (tr : List ApiCall)
    (h : askClaude env oid q pid t = (.ok r, tr)) :
    r.conversationId = env.freshUuid := by
  have hrest : ∀ (r' : AskResult) (tr' : List ApiCall),
      askClaudeRest env q pid t = (.ok r', tr') →
      r'.conversationId = env.freshUuid := by
    intro r' tr' h'
    rcases hcc : createConversation env pid (some (conversationNameFor env t)) with e | cid
    · have he : askClaudeRest env q pid t =
          (.error e,
           [ApiCall.conversationCreate
             (createConversationRequest env pid (some (conversationNameFor env t)))]) := by
        simp [askClaudeRest, hcc]
      rw [he] at h'
      simp at h'
    · have hcid : cid = env.freshUuid := by
        unfold createConversation at hcc
        split_ifs at hcc
        injection hcc with hx
        exact hx.symm
      rcases hsm : sendMessageCall env q with e2 | resp
      · have he : askClaudeRest env q pid t =
            (.error e2,
             [ApiCall.conversationCreate
                (createConversationRequest env pid (some (conversationNameFor env t))),
              ApiCall.messagePost (sendMessageBody q)]) := by
          simp [askClaudeRest, hcc, hsm]
        rw [he] at h'
        simp at h'
      · rcases hft : fetchTranscriptCall env with e3 | chat
        · have he : askClaudeRest env q pid t =
              (.error e3,
               [ApiCall.conversationCreate
                  (createConversationRequest env pid (some (conversationNameFor env t))),
                ApiCall.messagePost (sendMessageBody q), ApiCall.delay 5000,
                ApiCall.transcriptFetch]) := by
            simp [askClaudeRest, hcc, hsm, hft]
          rw [he] at h'
          simp at h'
        · have he : askClaudeRest env q pid t =
              (.ok ⟨extractAnswer chat, cid, str "https://claude.ai/chat/" ++ cid, true⟩,
               [ApiCall.conversationCreate
                  (createConversationRequest env pid (some (conversationNameFor env t))),
                ApiCall.messagePost (sendMessageBody q), ApiCall.delay 5000,
                ApiCall.transcriptFetch]) := by
            simp [askClaudeRest, hcc, hsm, hft]
          rw [he] at h'
          simp only [Prod.mk.injEq, Except.ok.injEq] at h'
          rw [← h'.1, ← hcid]
  rcases oid with _ | o
  · rcases hfo : fetchOrganizations env with e | orgs
    · rw [show askClaude env none q pid t = (.error e, [ApiCall.organizationsList])
          from by simp [askClaude, hfo]] at h
      simp at h
    · rcases orgs with _ | ⟨o, rest⟩
      · rw [show askClaude env none q pid t =
            (.error (str "No organizations found"), [ApiCall.organizationsList])
            from by simp [askClaude, hfo]] at h
        simp at h
      · rw [show askClaude env none q pid t =
            ((askClaudeRest env q pid t).1,
             ApiCall.organizationsList :: (askClaudeRest env q pid t).2)
            from by simp [askClaude, hfo]] at h
        have h1 : (askClaudeRest env q pid t).1 = .ok r := by
          have := congrArg Prod.fst h
          simpa using this
        exact hrest r (askClaudeRest env q pid t).2 (Prod.ext_iff.mpr ⟨h1, rfl⟩)
  · rw [show askClaude env (some o) q pid t =
        ((askClaudeRest env q pid t).1, (askClaudeRest env q pid t).2)
        from by simp [askClaude]] at h
    have h1 : (askClaudeRest env q pid t).1 = .ok r := by
      have := congrArg Prod.fst h
      simpa using this
    exact hrest r (askClaudeRest env q pid t).2 (Prod.ext_iff.mpr ⟨h1, rfl⟩)

/-- C3: every chat-service HTTP call raises, on a non-2xx status, an
error whose message carries the status code; no call is issued more
than once per request; a failed creation call aborts the rest of the
pipeline; and a propagated backend error surfaces as a notification
containing the failure message while no text is inserted into the
field. -/
theorem C3_http_failure_policy :
    (∀ env : BackendEnv, respOk env.orgsStatus = false →
      fetchOrganizations env =
        .error (str "Failed to fetch organizations: " ++ natStr env.orgsStatus)) ∧
    (∀ env : BackendEnv, respOk env.projectsStatus = false →
      fetchProjectsCall env =
        .error (str "Failed to fetch conversations: " ++ natStr env.projectsStatus)) ∧
    (∀ (env : BackendEnv) (pid nm : Option Str), respOk env.createStatus = false →
      createConversation env pid nm =
        .error (str "Failed to create conversation: " ++ natStr env.createStatus)) ∧
    (∀ (env : BackendEnv) (msg : Str), respOk env.sendStatus = false →
      sendMessageCall env msg =
        .error (str "Failed to send message: " ++ natStr env.sendStatus)) ∧
    (∀ env : BackendEnv, respOk env.chatStatus = false →
      fetchTranscriptCall env =
        .error (str "Failed to retrieve messages: " ++ natStr env.chatStatus)) ∧
    (∀ (tag : Str) (status : Nat),
      hasSub (natStr status) (tag ++ natStr status) = true) ∧
    (∀ (env : BackendEnv) (oid : Option Str) (q : Str) (pid t : Option Str),
      (askClaude env oid q pid t).2.countP isOrganizationsList ≤ 1 ∧
      (askClaude env oid q pid t).2.countP isConversationCreate ≤ 1 ∧
      (askClaude env oid q pid t).2.countP isMessagePost ≤ 1 ∧
      (askClaude env oid q pid t).2.countP isTranscriptFetch ≤ 1) ∧
    (∀ (env : BackendEnv) (oid : Option Str) (q : Str) (pid t : Option Str),
      (oid = none → respOk env.orgsStatus = true ∧ env.orgsBody ≠ []) →
      respOk env.createStatus = false →
      (askClaude env oid q pid t).1 =
        .error (str "Failed to create conversation: " ++ natStr env.createStatus) ∧
      (askClaude env oid q pid t).2.countP isMessagePost = 0 ∧
      (askClaude env oid q pid t).2.countP isTranscriptFetch = 0) ∧
    (∀ (st : ClickState) (m : Str) (inDoc : Bool), m ≠ [] →
      (clickPhase2 st (.error m) inDoc).2 =
        [ClickAction.notify (str "Error: " ++ m),
         ClickAction.scheduleClearUrl 10000] ∧
      hasSub m (str "Error: " ++ m) = true ∧
      ∀ ans, ClickAction.insertText ans ∉ (clickPhase2 st (.error m) inDoc).2) := by
  refine ⟨?_, ?_, ?_, ?_, ?_, ?_, ?_, ?_, ?_⟩
  · intro env h
    simp [fetchOrganizations, h]
  · intro env h
    simp [fetchProjectsCall, h]
  · intro env pid nm h
    simp [createConversation, h]
  · intro env msg h
    simp [sendMessageCall, h]
  · intro env h
    simp [fetchTranscriptCall, h]
  · intro tag status
    have := hasSub_append (natStr status) tag []
    simpa using this
  · intro env oid q pid t
    obtain ⟨tr0, htr0, hsp⟩ := askClaude_trace_split env oid q pid t
    rcases hsp with hsp | hsp
    · rcases htr0 with h0 | h0 <;> rw [hsp, h0] <;>
        simp [List.countP_cons, isOrganizationsList, isConversationCreate,
          isMessagePost, isTranscriptFetch]
    · rcases askClaudeRest_trace_cases env q pid t with hr | hr | hr <;>
      rcases htr0 with h0 | h0 <;>
      rw [hsp, hr, h0] <;>
      simp [List.countP_append, List.countP_cons, isOrganizationsList,
        isConversationCreate, isMessagePost, isTranscriptFetch]
  · intro env oid q pid t horg hcr
    obtain ⟨tr0, htr0, heq⟩ := askClaude_create_fail env oid q pid t horg hcr
    rw [heq]
    rcases htr0 with h0 | h0 <;> rw [h0] <;>
      simp [List.countP_cons, isMessagePost, isTranscriptFetch]
  · intro st m inDoc hm
    have h : (clickPhase2 st (.error m) inDoc).2 =
        [ClickAction.notify (str "Error: " ++ m),
         ClickAction.scheduleClearUrl 10000] := by
      simp [clickPhase2, hm]
    refine ⟨h, ?_, ?_⟩
    · have := hasSub_append m (str "Error: ") []
      simpa using this
    · intro ans
      rw [h]
      simp

/-- Witness for C3: a 500 from the organizations endpoint raises the
status-carrying error, and the propagated message is shown while
nothing is inserted. -/
theorem C3_http_failure_policy_witness :
    fetchOrganizations
      ⟨500, [], 200, ⟨[]⟩, 200, [], 200, none, 200, [], []⟩ =
      .error (str "Failed to fetch organizations: " ++ natStr 500) ∧
    (clickPhase2 ⟨true, none, true⟩
      (.error (str "Failed to fetch organizations: 500")) true).2 =
      [ClickAction.notify
        (str "Error: " ++ str "Failed to fetch organizations: 500"),
       ClickAction.scheduleClearUrl 10000] := by
  constructor
  · exact C3_http_failure_policy.1
      ⟨500, [], 200, ⟨[]⟩, 200, [], 200, none, 200, [], []⟩ (by decide)
  · exact (C3_http_failure_policy.2.2.2.2.2.2.2.2
      ⟨true, none, true⟩ (str "Failed to fetch organizations: 500") true
      (by decide)).1

theorem conversationNameFor_ne_nil (env : BackendEnv) (t : Option Str) :
    conversationNameFor env t ≠ [] := by
  have hfb : fallbackConversationName env ≠ [] := by
    unfold fallbackConversationName
    intro h
    rw [List.append_eq_nil] at h
    exact absurd h.1 (by decide)
  unfold conversationNameFor
  rcases t with _ | s
  · exact hfb
  · by_cases hs : s = [] <;> simp [hs, hfb]

theorem createConversationRequest_fields (env : BackendEnv)
    (pid : Option Str) (t : Option Str) :
    (createConversationRequest env pid (some (conversationNameFor env t))).uuid =
      env.freshUuid ∧
    (createConversationRequest env pid (some (conversationNameFor env t))).name =
      conversationNameFor env t := by
  refine ⟨rfl, ?_⟩
  unfold createConversationRequest
  simp [conversationNameFor_ne_nil env t]

/-- C8 counterexample to "service-issued UUID": at an environment
whose creation reply carries the uuid `srv-uuid`, the conversation is
nevertheless identified by the client-generated `cli-uuid`, which the
source posted and returns while discarding the parsed reply. -/
theorem C8_counterexample :
    createConversation
      ⟨200, [], 200, ⟨str "srv-uuid"⟩, 200, [], 200, none, 200,
       str "cli-uuid", []⟩
      (some (str "proj")) (some (str "Form: q")) = .ok (str "cli-uuid") ∧
    (⟨200, [], 200, ⟨str "srv-uuid"⟩, 200, [], 200, none, 200,
      str "cli-uuid", []⟩ : BackendEnv).createBody.uuid = str "srv-uuid" ∧
    (str "cli-uuid" : Str) ≠ str "srv-uuid" := by
  exact ⟨rfl, rfl, by decide⟩

/-- C8 (amended): every request that passes the organization step
creates exactly one fresh conversation; the uuid identifying it is the
client-generated `crypto.randomUUID()` value carried in the creation
request and returned as the conversation id; and the conversation name
is the `Form: `-prefixed, markdown-stripped, length-limited question
title. -/
theorem C8_fresh_conversation_client_uuid :
    (∀ (env : BackendEnv) (oid : Option Str) (q : Str) (pid t : Option Str),
      (oid = none → respOk env.orgsStatus = true ∧ env.orgsBody ≠ []) →
      (askClaude env oid q pid t).2.countP isConversationCreate = 1 ∧
      (∀ req : CreateRequest,
        ApiCall.conversationCreate req ∈ (askClaude env oid q pid t).2 →
        req.uuid = env.freshUuid ∧ req.name = conversationNameFor env t)) ∧
    (∀ (env : BackendEnv) (oid : Option Str) (q : Str) (pid t : Option Str)
        (r : AskResult) (tr : List ApiCall),
      askClaude env oid q pid t = (.ok r, tr) →
      r.conversationId = env.freshUuid) ∧
    (∀ q : Str, ∃ t : Str,
      generateConversationTitle q = str "Form: " ++ t ∧
      (∀ ch ∈ t, ch ∉ mdChars) ∧ t.length ≤ 60 ∧
      (((trimStr q).filter (fun ch => !mdChars.contains ch)).length ≤ 50 →
        t = (trimStr q).filter (fun ch => !mdChars.contains ch))) := by
  refine ⟨?_, ?_, ?_⟩
  · intro env oid q pid t horg
    obtain ⟨tr0, htr0, heq⟩ := askClaude_orgOk env oid q pid t horg
    have htr : (askClaude env oid q pid t).2 = tr0 ++ (askClaudeRest env q pid t).2 := by
      rw [heq]
    obtain ⟨huuid, hname⟩ := createConversationRequest_fields env pid t
    constructor
    · rcases askClaudeRest_trace_cases env q pid t with hr | hr | hr <;>
      rcases htr0 with h0 | h0 <;>
      rw [htr, hr, h0] <;>
      simp [List.countP_append, List.countP_cons, isConversationCreate]
    · intro req hmem
      rw [htr] at hmem
      rcases askClaudeRest_trace_cases env q pid t with hr | hr | hr <;>
      rcases htr0 with h0 | h0 <;>
      rw [hr, h0] at hmem <;>
      simp at hmem <;>
      rw [hmem] <;>
      exact ⟨huuid, hname⟩
  · intro env oid q pid t r tr h
    exact askClaude_ok_conversationId env oid q pid t r tr h
  · intro q
    have hclmd : ∀ ch ∈ (trimStr q).filter (fun c => !mdChars.contains c),
        ch ∉ mdChars := by
      intro ch hch
      have := List.of_mem_filter hch
      simpa using this
    have hdots : ∀ ch ∈ str "...", ch ∉ mdChars := by
      intro ch hch
      rw [show str "..." = ['.', '.', '.'] from rfl] at hch
      simp at hch
      rw [hch]
      decide
    by_cases hlen : ((trimStr q).filter (fun c => !mdChars.contains c)).length > 50
    · rcases hse : sentenceEndIdx ((trimStr q).filter (fun c => !mdChars.contains c))
          with _ | i
      · simp only [generateConversationTitle, hse]
        rw [if_pos hlen]
        refine ⟨((trimStr q).filter (fun c => !mdChars.contains c)).take 47 ++
          str "...", rfl, ?_, ?_, ?_⟩
        · intro ch hch
          rcases List.mem_append.mp hch with hch | hch
          · exact hclmd ch (List.take_subset _ _ hch)
          · exact hdots ch hch
        · rw [List.length_append, List.length_take]
          rw [show (str "...").length = 3 from rfl]
          omega
        · intro hle
          exact absurd hle (by omega)
      · simp only [generateConversationTitle, hse]
        rw [if_pos hlen]
        by_cases hi : i < 60
        · rw [if_pos hi]
          refine ⟨((trimStr q).filter (fun c => !mdChars.contains c)).take (i + 1),
            rfl, ?_, ?_, ?_⟩
          · intro ch hch
            exact hclmd ch (List.take_subset _ _ hch)
          · rw [List.length_take]
            omega
          · intro hle
            exact absurd hle (by omega)
        · rw [if_neg hi]
          refine ⟨((trimStr q).filter (fun c => !mdChars.contains c)).take 47 ++
            str "...", rfl, ?_, ?_, ?_⟩
          · intro ch hch
            rcases List.mem_append.mp hch with hch | hch
            · exact hclmd ch (List.take_subset _ _ hch)
            · exact hdots ch hch
          · rw [List.length_append, List.length_take]
            rw [show (str "...").length = 3 from rfl]
            omega
          · intro hle
            exact absurd hle (by omega)
    · simp only [generateConversationTitle]
      rw [if_neg hlen]
      refine ⟨(trimStr q).filter (fun c => !mdChars.contains c), rfl, hclmd, ?_, ?_⟩
      · omega
      · intro _
        rfl

/-- Witness for C8 at a concrete environment with a cached
organization id. -/
theorem C8_fresh_conversation_client_uuid_witness :
    (askClaude
      ⟨200, [], 200, ⟨str "srv"⟩, 200, [], 200, none, 200, str "cli",
       str "now"⟩
      (some (str "org1")) (str "q") none (some (str "Form: q"))).2.countP
      isConversationCreate = 1 :=
  (C8_fresh_conversation_client_uuid.1
    ⟨200, [], 200, ⟨str "srv"⟩, 200, [], 200, none, 200, str "cli",
     str "now"⟩
    (some (str "org1")) (str "q") none (some (str "Form: q"))
    (by intro h; cases h)).1

/-- Witness for C2 at a concrete image-bearing prompt. -/
theorem C2_askClaude_pipeline_witness :
    (sendMessageBody
      (str "before " ++ imgOpenTag ++ str "QUJD" ++ imgCloseTag ++
        str " after")).attachments.length = 1 ∧
    (sendMessageBody
      (str "before " ++ imgOpenTag ++ str "QUJD" ++ imgCloseTag ++
        str " after")).prompt = str "before " ++ str " after" :=
  C2_askClaude_pipeline.2 (str "before ") (str "QUJD") (str " after")
    (by decide) (by decide) (by decide)

end ClaudeAutofill
